import Mathlib

/-!
Shallow embedding of the tlock-js CLI example layer.

Source files embedded here:
* `examples/cli-encrypt.js` (the file `src/unnamed/part_000` of the review
  bundle): `parseArgs`, `showHelp`, `showUsage`, `encryptText`, `main`.
* `examples/encrypt-arbitrary-text.js`: the validators `validateRound` and
  the text check of its `encryptText`.

The external collaborators (`timelockEncrypt`, `mainnetClient`,
`testnetClient`, `client.chain().info()`, the clock, the filesystem) are
modelled as an oracle record supplying their results; every observable
action of the program (console output on stdout/stderr, raw stdout writes,
file writes, client construction and the two network calls) is recorded as
an event in a trace, and the process exit code is computed alongside.
-/

/-! ## JavaScript string and number primitives used by the source -/

/-- Whitespace characters recognised by JavaScript `String.prototype.trim`
and skipped by `parseInt` (the common set: space, tab, LF, VT, FF, CR,
NBSP, BOM, line/paragraph separator). -/
def jsWhitespaceChar (c : Char) : Bool :=
  c == ' ' || c == '\t' || c == '\n' || c == '\x0b' || c == '\x0c' ||
  c == '\r' || c == ' ' || c == (Char.ofNat 0xFEFF) ||
  c == (Char.ofNat 0x2028) || c == (Char.ofNat 0x2029)

/-- JavaScript `s.trim()`: strip the whitespace above from both ends. -/
def jsTrim (s : String) : String :=
  String.mk (((s.data.dropWhile jsWhitespaceChar).reverse.dropWhile
    jsWhitespaceChar).reverse)

/-- Digits admissible for a given parseInt base (10 or 16). -/
def jsDigitVal (base : Nat) (c : Char) : Option Nat :=
  if '0' ≤ c ∧ c ≤ '9' then some (c.toNat - '0'.toNat)
  else if base = 16 ∧ 'a' ≤ c ∧ c ≤ 'f' then some (c.toNat - 'a'.toNat + 10)
  else if base = 16 ∧ 'A' ≤ c ∧ c ≤ 'F' then some (c.toNat - 'A'.toNat + 10)
  else none

/-- Value of a digit list in a base (most significant first). -/
def digitsToNat (base : Nat) (ds : List Nat) : Nat :=
  ds.foldl (fun acc d => acc * base + d) 0

/-- JavaScript `parseInt(s)` with the radix argument omitted, as called at
`const round = parseInt(args[1])` in `parseArgs`: skip leading whitespace,
read an optional sign, switch to base 16 after a `0x`/`0X` prefix, then
take the maximal run of digits (any trailing garbage — e.g. a fractional
part — is ignored); `none` models the `NaN` result when no digit is found.
The IEEE-754 rounding that real `parseInt` applies to magnitudes above
2^53 is not modelled: every claim below evaluates it only where the result
is exactly representable, and no accept/reject decision in the source
depends on that rounding. -/
def jsParseInt (s : String) : Option Int :=
  let cs := s.data.dropWhile jsWhitespaceChar
  let signAndRest : Int × List Char :=
    match cs with
    | '-' :: rest => (-1, rest)
    | '+' :: rest => (1, rest)
    | _ => (1, cs)
  let baseAndRest : Nat × List Char :=
    match signAndRest.2 with
    | '0' :: 'x' :: rest => (16, rest)
    | '0' :: 'X' :: rest => (16, rest)
    | _ => (10, signAndRest.2)
  let ds := (baseAndRest.2.takeWhile
    (fun c => (jsDigitVal baseAndRest.1 c).isSome)).filterMap
    (jsDigitVal baseAndRest.1)
  if ds.isEmpty then none
  else some (signAndRest.1 * (digitsToNat baseAndRest.1 ds : Int))

/-- JavaScript truthiness of the `options.output` slot (`null` and the
empty string are falsy; any other string is truthy), as tested by
`options.stdout && options.output` and by `if (!filename)`. -/
def jsTruthyOutput : Option String → Bool
  | some s => !(s == "")
  | none => false

/-! ## The value model for `validateRound` (examples/encrypt-arbitrary-text.js)

A JavaScript number is modelled as a finite value (an exact rational — every
finite IEEE-754 double is one), `NaN`, or one of the two infinities. -/

inductive JSNum where
  | num (q : ℚ)
  | nan
  | inf
  | negInf
deriving DecidableEq, Repr

/-- JavaScript `Number.isInteger`: true exactly on finite integral values. -/
def jsIsInteger : JSNum → Bool
  | JSNum.num q => q.den == 1
  | _ => false

/-- JavaScript `x < k` for an integer literal `k` (false on `NaN`). -/
def jsLtInt : JSNum → Int → Bool
  | JSNum.num q, k => decide (q < (k : ℚ))
  | JSNum.nan, _ => false
  | JSNum.inf, _ => false
  | JSNum.negInf, _ => true

/-- JavaScript `x > k` for an integer literal `k` (false on `NaN`). -/
def jsGtInt : JSNum → Int → Bool
  | JSNum.num q, k => decide ((k : ℚ) < q)
  | JSNum.nan, _ => false
  | JSNum.inf, _ => true
  | JSNum.negInf, _ => false

/-- `Number.MAX_SAFE_INTEGER` = 2^53 - 1. -/
def maxSafeInteger : Int := 9007199254740991

/-- `validateRound` of examples/encrypt-arbitrary-text.js: reject
non-integers, values below 1 and values above `Number.MAX_SAFE_INTEGER`;
otherwise return the round unchanged. -/
def validateRound (round : JSNum) : Except String JSNum :=
  if !(jsIsInteger round) then Except.error ("Round number must be an integer")
  else if jsLtInt round 1 then Except.error ("Round number must be at least 1")
  else if jsGtInt round maxSafeInteger then Except.error ("Round number is too large")
  else Except.ok round

/-- The text check shared by `parseArgs` (cli-encrypt.js) and `encryptText`
(encrypt-arbitrary-text.js): `if (!text || text.trim().length === 0)`; the
spec calls this `validateText`. -/
def validateText (t : String) : Except String String :=
  if t = ("") ∨ (jsTrim t).length = 0 then Except.error ("Text cannot be empty")
  else Except.ok t

/-! ## The Options record and the observable-event model -/

/-- The `options` object built by `parseArgs` in cli-encrypt.js. -/
structure Options where
  text : String
  round : Int
  output : Option String
  testnet : Bool
  verbose : Bool
  stdout : Bool
  quiet : Bool
deriving DecidableEq, Repr

/-- Fresh options record as initialised at lines 46-54 of cli-encrypt.js. -/
def optionsInit (text : String) (round : Int) : Options :=
  { text := text, round := round, output := none, testnet := false,
    verbose := false, stdout := false, quiet := false }

/-- One observable action of the process. `log s` is `console.log(s)`
(stdout, a newline appended), `elog s` is `console.error(s)` (stderr),
`writeStdout s` is `process.stdout.write(s)` (no newline), `writeFile` is
`fs.writeFileSync`, `mkClient` is `testnetClient()`/`mainnetClient()`,
`netChainInfo` is the `client.chain().info()` call and `netEncrypt` the
`timelockEncrypt(round, buffer, client)` call. -/
inductive Event where
  | log (s : String)
  | elog (s : String)
  | writeStdout (s : String)
  | writeFile (name : String) (contents : String)
  | mkClient (testnet : Bool)
  | netChainInfo
  | netEncrypt (round : Int) (plaintext : String)
deriving DecidableEq, Repr

/-- Network-touching events (client construction and the two remote calls). -/
def isNetworkEvent : Event → Bool
  | Event.mkClient _ => true
  | Event.netChainInfo => true
  | Event.netEncrypt _ _ => true
  | _ => false

/-- File-creating events. -/
def isFileWrite : Event → Bool
  | Event.writeFile _ _ => true
  | _ => false

/-- Bytes an event contributes to the standard-output stream:
`console.log` appends a newline, `process.stdout.write` writes verbatim,
everything else (stderr, files, network) contributes nothing. -/
def eventStdout : Event → String
  | Event.log s => s ++ "\n"
  | Event.writeStdout s => s
  | _ => ("")

/-- All bytes a trace puts on the standard-output stream, in order. -/
def stdoutOf (evs : List Event) : String :=
  evs.foldr (fun e acc => eventStdout e ++ acc) ("")

/-- Rendering of a JavaScript error thrown by a collaborator: `message` is
`error.message`, `full` the rendering `console.error` gives the whole
error object. -/
structure JsError where
  message : String
  full : String
deriving DecidableEq, Repr

/-- Chain metadata returned by `client.chain().info()`. -/
structure ChainInfo where
  hash : String
  schemeID : String
deriving DecidableEq, Repr

/-- Results the external collaborators give this invocation: the chain-info
fetch, the `timelockEncrypt` call, and `new Date().toISOString()`. -/
structure Oracle where
  chainInfo : Except JsError ChainInfo
  encryptResult : Except JsError String
  nowIso : String
deriving Repr

/-! ## parseArgs (cli-encrypt.js lines 19-94) -/

/-- Outcome of `parseArgs`: help printed and `process.exit(0)`, an error
printed and `process.exit(1)`, or a validated options record. -/
inductive ParseResult where
  | help
  | usageError (msg : String)
  | ok (opts : Options)
deriving DecidableEq, Repr

/-- JavaScript `arg.startsWith('--')` — the `String.startsWith` of the
source, modelled on the character list so that it is kernel-computable. -/
def strStartsWith (s pre : String) : Bool := List.isPrefixOf pre.data s.data

/-- The flag loop of `parseArgs` (lines 57-80): `--output`/`-o` consumes
the following token, the four boolean flags set their field, any other
token starting with `--` is a hard error, and any other token is skipped
(the loop has no branch for it). -/
def parseFlags : List String → Options → Except String Options
  | [], opts => Except.ok opts
  | arg :: rest, opts =>
    if arg = ("--output") ∨ arg = ("-o") then
      match rest with
      | [] => Except.error ("--output requires a filename")
      | v :: rest2 => parseFlags rest2 { opts with output := some v }
    else if arg = ("--testnet") ∨ arg = ("-t") then
      parseFlags rest { opts with testnet := true }
    else if arg = ("--verbose") ∨ arg = ("-v") then
      parseFlags rest { opts with verbose := true }
    else if arg = ("--stdout") ∨ arg = ("-s") then
      parseFlags rest { opts with stdout := true }
    else if arg = ("--quiet") ∨ arg = ("-q") then
      parseFlags rest { opts with quiet := true }
    else if strStartsWith arg ("--") then
      Except.error ("Unknown flag: " ++ arg)
    else
      parseFlags rest opts

/-- The text `showHelp` prints (one `console.log` of a template literal,
cli-encrypt.js lines 96-149). -/
def helpText : String :=
  "\n🔐 TLOCK-JS CLI: Encrypt Text from Command Line\n" ++
  "========================" ++ "========================\n\n" ++
  "USAGE:\n  node examples/cli-encrypt.js \"text\" round [options]\n\n" ++
  "ARGUMENTS:\n  text    The text to encrypt (use quotes for spaces)\n" ++
  "  round   Target drand round number (must be >= 1)\n\n" ++
  "OPTIONS:\n  -o, --output <file>    Output filename (default: auto-generated)\n" ++
  "  -s, --stdout           Output encrypted content to stdout (for piping)\n" ++
  "  -q, --quiet            Suppress all output except encrypted content (use with --stdout)\n" ++
  "  -t, --testnet          Use testnet instead of mainnet\n" ++
  "  -v, --verbose          Show detailed information\n" ++
  "  -h, --help             Show this help message\n\n" ++
  "EXAMPLES:\n  # Basic encryption\n  node examples/cli-encrypt.js \"Hello World\" 11645812\n  \n" ++
  "  # Save to specific file\n  node examples/cli-encrypt.js \"Secret message\" 11645812 --output secret.age\n  \n" ++
  "  # Output to stdout (for piping to other tools)\n  node examples/cli-encrypt.js \"Secret message\" 11645812 --stdout\n  \n" ++
  "  # Quiet stdout output (only encrypted content)\n  node examples/cli-encrypt.js \"Secret message\" 11645812 --stdout --quiet\n  \n" ++
  "  # Use testnet\n  node examples/cli-encrypt.js \"Test message\" 20000 --testnet\n  \n" ++
  "  # Verbose output\n  node examples/cli-encrypt.js \"My text\" 11650000 --verbose\n\n" ++
  "NETWORKS:\n  Mainnet (default): 52db9ba70e0cc0f6eaf7803dd07447a1f5477735fd3f661792ba94600c84e971\n" ++
  "  Testnet:           7672797f548f3f4748ac4bf3352fc6c6b6468c9ad40ad456a397545c6e2df5bf\n\n" ++
  "PIPING EXAMPLES:\n  # Save encrypted content to file\n  node examples/cli-encrypt.js \"My secret\" 11645812 --stdout > secret.age\n  \n" ++
  "  # Encrypt and immediately decrypt (for testing)\n  node examples/cli-encrypt.js \"Test\" 11645812 --stdout | node examples/cli-decrypt.js\n  \n" ++
  "  # Encrypt and compress\n  node examples/cli-encrypt.js \"Long text\" 11645812 --stdout | gzip > secret.age.gz\n"

/-- The text `showUsage` prints (cli-encrypt.js lines 151-156). -/
def usageText : String :=
  "\nUSAGE: node examples/cli-encrypt.js \"text\" round [options]\n" ++
  "Try: node examples/cli-encrypt.js --help for more information\n"

/-- `parseArgs` of cli-encrypt.js, with its console output as events and
`process.exit` calls as `ParseResult` outcomes. Order as in the source:
the help scan over the whole vector, the arity check, the text check, the
`parseInt`/positivity check, the flag loop, then the two mutual-exclusion
checks (the latter using JavaScript truthiness of `options.output`). -/
def parseArgsRun (args : List String) : List Event × ParseResult :=
  if args.contains ("--help") || args.contains ("-h") then
    ([Event.log helpText], ParseResult.help)
  else
    match args with
    | text :: roundTok :: rest =>
      if text = ("") ∨ (jsTrim text).length = 0 then
        ([Event.elog ("❌ Error: Text cannot be empty")],
         ParseResult.usageError ("Text cannot be empty"))
      else
        match jsParseInt roundTok with
        | none =>
          ([Event.elog ("❌ Error: Round must be a positive integer")],
           ParseResult.usageError ("Round must be a positive integer"))
        | some round =>
          if round < 1 then
            ([Event.elog ("❌ Error: Round must be a positive integer")],
             ParseResult.usageError ("Round must be a positive integer"))
          else
            match parseFlags rest (optionsInit text round) with
            | Except.error m =>
              ([Event.elog ("❌ Error: " ++ m)], ParseResult.usageError m)
            | Except.ok opts =>
              if opts.stdout && jsTruthyOutput opts.output then
                ([Event.elog ("❌ Error: Cannot use both --stdout and --output")],
                 ParseResult.usageError ("Cannot use both --stdout and --output"))
              else if opts.quiet && !opts.stdout then
                ([Event.elog ("❌ Error: --quiet can only be used with --stdout")],
                 ParseResult.usageError ("--quiet can only be used with --stdout"))
              else ([], ParseResult.ok opts)
    | _ =>
      ([Event.elog ("❌ Error: Missing required arguments"), Event.log usageText],
       ParseResult.usageError ("Missing required arguments"))

/-- Just the outcome of `parseArgs`. -/
def parseArgs (args : List String) : ParseResult := (parseArgsRun args).2

/-! ## encryptText and main (cli-encrypt.js lines 158-270) -/

/-- `'─'.repeat(50)` (cli-encrypt.js line 199). -/
def sepLine : String := String.mk (List.replicate 50 '─')

/-- `'\n─'.repeat(50)` (cli-encrypt.js line 203: the `repeat` binds to the
two-character string, so the newline is repeated too). -/
def nlSepLine : String := String.join (List.replicate 50 ("\n─"))

/-- `new Date().toISOString().replace(/[:.]/g, '-').slice(0, -5)`
(cli-encrypt.js line 209): every colon and period becomes a dash, then the
last five UTF-16 units are dropped. -/
def sanitizeTimestamp (iso : String) : String :=
  let replaced := iso.data.map (fun c => if c = ':' ∨ c = '.' then '-' else c)
  String.mk (replaced.take (replaced.length - 5))

/-- The auto-generated output filename (cli-encrypt.js lines 208-212). -/
def autoFilename (iso : String) (testnet : Bool) (round : Int) : String :=
  "encrypted-" ++ (if testnet then ("testnet") else ("mainnet")) ++
    "-round-" ++ toString round ++ "-" ++ sanitizeTimestamp iso ++ ".age"

/-- `(encrypted.length / 1024).toFixed(2)` of the verbose file report
(cli-encrypt.js line 222), modelled as the exact decimal of length/1024
rounded half-up to two places (the float detour of the source can differ
in the last place on adversarial lengths; no claim touches this string). -/
def toFixed2KB (len : Nat) : String :=
  let r := (len * 100 + 512) / 1024
  toString (r / 100) ++ "." ++ (if r % 100 < 10 then ("0") else ("")) ++ toString (r % 100)

/-- The pre-encryption report of `encryptText` (cli-encrypt.js lines
166-185): nothing when quiet; under verbose the four detail lines plus the
non-fatal chain-info fetch (success prints hash and scheme, failure prints
the warning); otherwise the two standard lines. -/
def preReportEvents (o : Options) (w : Oracle) : List Event :=
  if o.quiet then [] else
  if o.verbose then
    [Event.log ("🔐 Encrypting text for " ++ (if o.testnet then ("testnet") else ("mainnet (quicknet)"))),
     Event.log ("📝 Text: \"" ++ o.text ++ "\""),
     Event.log ("🎯 Round: " ++ toString o.round),
     Event.log ("🌐 Network: " ++ (if o.testnet then ("testnet") else ("mainnet (quicknet)"))),
     Event.netChainInfo] ++
    (match w.chainInfo with
     | Except.ok ci =>
       [Event.log ("🔗 Chain Hash: " ++ ci.hash),
        Event.log ("📋 Scheme: " ++ ci.schemeID)]
     | Except.error e =>
       [Event.log ("⚠️  Could not fetch chain info: " ++ e.message)])
  else
    [Event.log ("🔐 Encrypting: \"" ++ o.text ++ "\""),
     Event.log ("🎯 Target round: " ++ toString o.round)]

/-- `encryptText(options)` of cli-encrypt.js: the event trace it emits and
its result (the encrypted artifact, or the error it re-throws). The client
is constructed first (line 163); the pre-encryption report, including the
non-fatal chain-info fetch, runs only when not quiet (lines 166-185); the
encryption call itself always runs (line 189); on success the artifact
goes to stdout or to a file — an explicitly given but falsy (empty)
`options.output` falls back to the auto-generated name, mirroring
`if (!filename)` (lines 207-212); on failure the catch block reports
(unless quiet) and re-throws (lines 231-239). -/
def encryptTextRun (o : Options) (w : Oracle) : List Event × Except JsError String :=
  let beforeEnc : List Event :=
    Event.mkClient o.testnet :: preReportEvents o w ++ [Event.netEncrypt o.round o.text]
  match w.encryptResult with
  | Except.error e =>
    (beforeEnc ++
      (if o.quiet then [] else
        Event.elog ("❌ Encryption failed: " ++ e.message) ::
        (if o.verbose then [Event.elog ("Full error: " ++ e.full)] else [])),
     Except.error e)
  | Except.ok encrypted =>
    let successEvents : List Event :=
      if o.quiet then [] else [Event.log ("✅ Encryption successful!")]
    if o.stdout then
      (beforeEnc ++ successEvents ++
        (if o.quiet then [] else
          [Event.log ("📤 Outputting encrypted content to stdout:"),
           Event.log sepLine]) ++
        [Event.writeStdout encrypted] ++
        (if o.quiet then [] else [Event.log nlSepLine]),
       Except.ok encrypted)
    else
      let filename :=
        if jsTruthyOutput o.output then o.output.getD ("")
        else autoFilename w.nowIso o.testnet o.round
      (beforeEnc ++ successEvents ++ [Event.writeFile filename encrypted] ++
        (if o.quiet then [] else
          [Event.log ("📁 Saved to: " ++ filename),
           Event.log ("⏰ Can be decrypted after round " ++ toString o.round ++ " is reached")] ++
          (if o.verbose then
            [Event.log ("\n📊 File Details:"),
             Event.log ("   Size: " ++ toFixed2KB encrypted.length ++ " KB"),
             Event.log ("   Format: Age encryption with timelock"),
             Event.log ("   Filekey Hash: Included for verification")]
           else [])),
       Except.ok encrypted)

/-- `main()` of cli-encrypt.js as the pair (event trace, exit code).
`parseArgs` exits the process directly on help or usage errors. On an
error propagated out of `encryptText`, the catch block evaluates
`options.quiet`, but `options` is a `const` scoped to the `try` block and
is not visible in the catch block, so a `ReferenceError` is thrown there
instead of the `💥 Fatal error` report; it rejects `main()`'s promise,
which is never awaited, and Node reports the unhandled rejection on
stderr and terminates the process with exit code 1. -/
def mainRun (argv : List String) (w : Oracle) : List Event × Nat :=
  match parseArgsRun argv with
  | (evs, ParseResult.help) => (evs, 0)
  | (evs, ParseResult.usageError _) => (evs, 1)
  | (evs, ParseResult.ok opts) =>
    let banner : List Event :=
      if opts.quiet then [] else
        [Event.log ("🚀 TLOCK-JS CLI Encryption Tool"),
         Event.log ("================================\n")]
    let run := encryptTextRun opts w
    match run.2 with
    | Except.ok _ =>
      let post : List Event :=
        if opts.quiet then [] else
          (if opts.stdout then
            [Event.log ("\n🎉 Done! Encrypted content output to stdout."),
             Event.log ("\n💡 You can pipe this output to other tools or save to file.")]
           else
            [Event.log ("\n🎉 Done! Your text has been encrypted and saved.")]) ++
          [Event.log ("\n💡 To decrypt later, use:"),
           Event.log ("   const decrypted = await timelockDecrypt(encryptedContent, client);")]
      (evs ++ banner ++ run.1 ++ post, 0)
    | Except.error _ =>
      (evs ++ banner ++ run.1 ++
        [Event.elog ("ReferenceError: options is not defined")], 1)

/-! ## Sample collaborator results for concrete runs -/

/-- Chain metadata used in concrete runs. -/
def chainInfoSample : ChainInfo :=
  { hash := ("52db9ba70e0cc0f6eaf7803dd07447a1f5477735fd3f661792ba94600c84e971"),
    schemeID := ("bls-unchained-g1-rfc9380") }

/-- Collaborators all succeed; the encryption primitive returns the
artifact string `AGE-ARTIFACT`. -/
def oracleOk : Oracle :=
  { chainInfo := Except.ok chainInfoSample,
    encryptResult := Except.ok ("AGE-ARTIFACT"),
    nowIso := ("2026-10-11T12:34:56.789Z") }

/-- The encryption primitive fails with message `boom`. -/
def oracleEncFail : Oracle :=
  { chainInfo := Except.ok chainInfoSample,
    encryptResult := Except.error { message := ("boom"), full := ("Error: boom") },
    nowIso := ("2026-10-11T12:34:56.789Z") }

/-- The diagnostic chain-info fetch fails; encryption succeeds. -/
def oracleChainFail : Oracle :=
  { chainInfo := Except.error { message := ("fetch failed"), full := ("Error: fetch failed") },
    encryptResult := Except.ok ("AGE-ARTIFACT"),
    nowIso := ("2026-10-11T12:34:56.789Z") }

/-! ## Helper lemmas -/

theorem string_length_eq_zero_iff {s : String} : s.length = 0 ↔ s = ("") := by
  constructor
  · intro h
    cases s with
    | mk d =>
      cases d with
      | nil => rfl
      | cons a t => simp [String.length] at h
  · intro h
    subst h
    rfl

theorem stdoutOf_nil : stdoutOf [] = ("") := rfl

theorem stdoutOf_cons (e : Event) (l : List Event) :
    stdoutOf (e :: l) = eventStdout e ++ stdoutOf l := rfl

theorem stdoutOf_append (a b : List Event) :
    stdoutOf (a ++ b) = stdoutOf a ++ stdoutOf b := by
  induction a with
  | nil => simp [stdoutOf_nil, stdoutOf, String.empty_append]
  | cons e t ih =>
    simp only [List.cons_append, stdoutOf_cons, ih, String.append_assoc]

theorem string_append_ne_empty_left {a b : String} (h : a.length ≠ 0) :
    a ++ b ≠ ("") := by
  intro hab
  have hl : (a ++ b).length = 0 := by rw [hab]; rfl
  rw [String.length_append] at hl
  omega

/-- Every branch of `parseArgs` is one of: no events (the ok outcome), a
usage error, or help. -/
theorem parseArgsRun_shape (args : List String) :
    (parseArgsRun args).1 = [] ∨
    (∃ m, (parseArgsRun args).2 = ParseResult.usageError m) ∨
    (parseArgsRun args).2 = ParseResult.help := by
  unfold parseArgsRun
  repeat' split
  all_goals first
    | exact Or.inl rfl
    | exact Or.inr (Or.inl ⟨_, rfl⟩)
    | exact Or.inr (Or.inr rfl)

/-- A successful `parseArgs` prints nothing. -/
theorem parseArgsRun_ok_fst {args : List String} {opts : Options}
    (h : (parseArgsRun args).2 = ParseResult.ok opts) :
    parseArgsRun args = ([], ParseResult.ok opts) := by
  rcases parseArgsRun_shape args with h1 | ⟨m, h2⟩ | h3
  · have he : parseArgsRun args = ((parseArgsRun args).1, (parseArgsRun args).2) := rfl
    rw [he, h1, h]
  · rw [h] at h2; cases h2
  · rw [h] at h3; cases h3

/-- `parseArgs` itself never touches the network: its events are console
messages only. -/
theorem parseArgsRun_no_network (args : List String) :
    (parseArgsRun args).1.all (fun e => !isNetworkEvent e) = true := by
  unfold parseArgsRun
  repeat' split
  all_goals rfl

/-- On a usage error the CLI prints the parse diagnostics and exits 1. -/
theorem mainRun_usage {args : List String} {w : Oracle} {m : String}
    (h : (parseArgsRun args).2 = ParseResult.usageError m) :
    mainRun args w = ((parseArgsRun args).1, 1) := by
  rcases hE : parseArgsRun args with ⟨evs, res⟩
  rw [hE] at h
  simp only at h
  subst h
  simp [mainRun, hE]

/-- The flag loop never changes the positional fields. -/
theorem parseFlags_text_round_aux :
    ∀ (n : Nat) (rest : List String) (o o' : Options), rest.length ≤ n →
      parseFlags rest o = Except.ok o' →
      o'.text = o.text ∧ o'.round = o.round := by
  intro n
  induction n with
  | zero =>
    intro rest o o' hlen h
    have hnil : rest = [] := List.eq_nil_of_length_eq_zero (Nat.le_zero.mp hlen)
    subst hnil
    simp [parseFlags] at h
    subst h
    exact ⟨rfl, rfl⟩
  | succ n ih =>
    intro rest o o' hlen h
    match rest with
    | [] =>
      simp [parseFlags] at h
      subst h
      exact ⟨rfl, rfl⟩
    | arg :: rest1 =>
      rw [parseFlags.eq_def] at h
      simp only at h
      repeat' split at h
      any_goals exact Except.noConfusion h
      all_goals
        obtain ⟨ht, hr⟩ := ih _ _ o'
          (by simp only [List.length_cons] at hlen ⊢; omega) h
      all_goals simp_all

theorem parseFlags_text_round {rest : List String} {o o' : Options}
    (h : parseFlags rest o = Except.ok o') :
    o'.text = o.text ∧ o'.round = o.round :=
  parseFlags_text_round_aux rest.length rest o o' (Nat.le_refl _) h

/-- If neither output flag nor stdout flag token occurs among the flag
tokens, the flag loop leaves `output` and `stdout` unchanged. -/
theorem parseFlags_abs_aux :
    ∀ (n : Nat) (rest : List String) (o o' : Options), rest.length ≤ n →
      ("--output") ∉ rest → ("-o") ∉ rest → ("--stdout") ∉ rest → ("-s") ∉ rest →
      parseFlags rest o = Except.ok o' →
      o'.output = o.output ∧ o'.stdout = o.stdout := by
  intro n
  induction n with
  | zero =>
    intro rest o o' hlen _ _ _ _ h
    have hnil : rest = [] := List.eq_nil_of_length_eq_zero (Nat.le_zero.mp hlen)
    subst hnil
    simp [parseFlags] at h
    subst h
    exact ⟨rfl, rfl⟩
  | succ n ih =>
    intro rest o o' hlen h1 h2 h3 h4 h
    match rest with
    | [] =>
      simp [parseFlags] at h
      subst h
      exact ⟨rfl, rfl⟩
    | arg :: rest1 =>
      have harg1 : ¬ (arg = ("--output") ∨ arg = ("-o")) := by
        rintro (rfl | rfl)
        · exact h1 (List.mem_cons_self _ _)
        · exact h2 (List.mem_cons_self _ _)
      have harg4 : ¬ (arg = ("--stdout") ∨ arg = ("-s")) := by
        rintro (rfl | rfl)
        · exact h3 (List.mem_cons_self _ _)
        · exact h4 (List.mem_cons_self _ _)
      have t1 : ("--output") ∉ rest1 := fun hm => h1 (List.mem_cons_of_mem _ hm)
      have t2 : ("-o") ∉ rest1 := fun hm => h2 (List.mem_cons_of_mem _ hm)
      have t3 : ("--stdout") ∉ rest1 := fun hm => h3 (List.mem_cons_of_mem _ hm)
      have t4 : ("-s") ∉ rest1 := fun hm => h4 (List.mem_cons_of_mem _ hm)
      have hlen1 : rest1.length ≤ n := by
        simp only [List.length_cons] at hlen
        omega
      rw [parseFlags.eq_def] at h
      simp only at h
      rw [if_neg harg1] at h
      by_cases c2 : arg = ("--testnet") ∨ arg = ("-t")
      · rw [if_pos c2] at h
        obtain ⟨ho, hs⟩ := ih rest1 _ o' hlen1 t1 t2 t3 t4 h
        simp_all
      · rw [if_neg c2] at h
        by_cases c3 : arg = ("--verbose") ∨ arg = ("-v")
        · rw [if_pos c3] at h
          obtain ⟨ho, hs⟩ := ih rest1 _ o' hlen1 t1 t2 t3 t4 h
          simp_all
        · rw [if_neg c3, if_neg harg4] at h
          by_cases c5 : arg = ("--quiet") ∨ arg = ("-q")
          · rw [if_pos c5] at h
            obtain ⟨ho, hs⟩ := ih rest1 _ o' hlen1 t1 t2 t3 t4 h
            simp_all
          · rw [if_neg c5] at h
            by_cases c6 : strStartsWith arg ("--") = true
            · rw [if_pos c6] at h
              exact Except.noConfusion h
            · rw [if_neg c6] at h
              exact ih rest1 o o' hlen1 t1 t2 t3 t4 h

theorem parseFlags_abs {rest : List String} {o o' : Options}
    (h1 : ("--output") ∉ rest) (h2 : ("-o") ∉ rest)
    (h3 : ("--stdout") ∉ rest) (h4 : ("-s") ∉ rest)
    (h : parseFlags rest o = Except.ok o') :
    o'.output = o.output ∧ o'.stdout = o.stdout :=
  parseFlags_abs_aux rest.length rest o o' (Nat.le_refl _) h1 h2 h3 h4 h

/-- A token that begins with `--` and is none of the five recognized long
flags stops the flag loop with the hard `Unknown flag` error. -/
theorem parseFlags_unknown_long {arg : String} {rest : List String} {o : Options}
    (hpre : strStartsWith arg ("--") = true)
    (hm : arg ∉ [("--output"), ("--testnet"), ("--verbose"), ("--stdout"), ("--quiet")]) :
    parseFlags (arg :: rest) o = Except.error ("Unknown flag: " ++ arg) := by
  simp only [List.mem_cons, List.mem_singleton, not_or, List.not_mem_nil] at hm
  obtain ⟨n1, n2, n3, n4, n5, _⟩ := hm
  have s1 : ¬ (arg = ("--output") ∨ arg = ("-o")) := by
    rintro (rfl | rfl)
    · exact n1 rfl
    · exact absurd hpre (by decide)
  have s2 : ¬ (arg = ("--testnet") ∨ arg = ("-t")) := by
    rintro (rfl | rfl)
    · exact n2 rfl
    · exact absurd hpre (by decide)
  have s3 : ¬ (arg = ("--verbose") ∨ arg = ("-v")) := by
    rintro (rfl | rfl)
    · exact n3 rfl
    · exact absurd hpre (by decide)
  have s4 : ¬ (arg = ("--stdout") ∨ arg = ("-s")) := by
    rintro (rfl | rfl)
    · exact n4 rfl
    · exact absurd hpre (by decide)
  have s5 : ¬ (arg = ("--quiet") ∨ arg = ("-q")) := by
    rintro (rfl | rfl)
    · exact n5 rfl
    · exact absurd hpre (by decide)
  rw [parseFlags.eq_def]
  simp only
  rw [if_neg s1, if_neg s2, if_neg s3, if_neg s4, if_neg s5, if_pos hpre]

/-- A token that does not begin with `--` and is none of the recognized
flag spellings is skipped: the loop continues on the remaining tokens with
the options unchanged. -/
theorem parseFlags_skips_unrecognized {arg : String} {rest : List String} {o : Options}
    (hpre : strStartsWith arg ("--") = false)
    (hm : arg ∉ [("-o"), ("-t"), ("-v"), ("-s"), ("-q")]) :
    parseFlags (arg :: rest) o = parseFlags rest o := by
  simp only [List.mem_cons, List.mem_singleton, not_or, List.not_mem_nil] at hm
  obtain ⟨n1, n2, n3, n4, n5, _⟩ := hm
  have hlong : ∀ t : String, strStartsWith t ("--") = true → arg ≠ t := by
    intro t ht hEq
    rw [hEq, ht] at hpre
    exact Bool.noConfusion hpre
  have s1 : ¬ (arg = ("--output") ∨ arg = ("-o")) := by
    rintro (rfl | rfl)
    · exact hlong _ (by decide) rfl
    · exact n1 rfl
  have s2 : ¬ (arg = ("--testnet") ∨ arg = ("-t")) := by
    rintro (rfl | rfl)
    · exact hlong _ (by decide) rfl
    · exact n2 rfl
  have s3 : ¬ (arg = ("--verbose") ∨ arg = ("-v")) := by
    rintro (rfl | rfl)
    · exact hlong _ (by decide) rfl
    · exact n3 rfl
  have s4 : ¬ (arg = ("--stdout") ∨ arg = ("-s")) := by
    rintro (rfl | rfl)
    · exact hlong _ (by decide) rfl
    · exact n4 rfl
  have s5 : ¬ (arg = ("--quiet") ∨ arg = ("-q")) := by
    rintro (rfl | rfl)
    · exact hlong _ (by decide) rfl
    · exact n5 rfl
  rw [parseFlags.eq_def]
  simp only
  rw [if_neg s1, if_neg s2, if_neg s3, if_neg s4, if_neg s5, if_neg (by simp [hpre])]

/-- Inverting a successful parse: the round is the `parseInt` value of the
second positional, it passed the positivity check, and the options record
is the flag loop's output seeded with the two positionals. -/
theorem parseArgs_ok_inv {t rTok : String} {rest : List String} {opts : Options}
    (h : parseArgs (t :: rTok :: rest) = ParseResult.ok opts) :
    ∃ n : Int, jsParseInt rTok = some n ∧ 1 ≤ n ∧
      parseFlags rest (optionsInit t n) = Except.ok opts ∧
      (opts.stdout && jsTruthyOutput opts.output) = false ∧
      (opts.quiet && !opts.stdout) = false := by
  unfold parseArgs parseArgsRun at h
  by_cases hh : ((t :: rTok :: rest).contains ("--help") || (t :: rTok :: rest).contains ("-h")) = true
  · rw [if_pos hh] at h
    exact ParseResult.noConfusion h
  · rw [if_neg hh] at h
    simp only at h
    by_cases ht : t = ("") ∨ (jsTrim t).length = 0
    · rw [if_pos ht] at h
      exact ParseResult.noConfusion h
    · rw [if_neg ht] at h
      cases hJ : jsParseInt rTok with
      | none =>
        rw [hJ] at h
        exact ParseResult.noConfusion h
      | some n =>
        rw [hJ] at h
        simp only at h
        by_cases hlt : n < 1
        · rw [if_pos hlt] at h
          exact ParseResult.noConfusion h
        · rw [if_neg hlt] at h
          cases hF : parseFlags rest (optionsInit t n) with
          | error m =>
            rw [hF] at h
            exact ParseResult.noConfusion h
          | ok opts' =>
            rw [hF] at h
            simp only at h
            by_cases hso : (opts'.stdout && jsTruthyOutput opts'.output) = true
            · rw [if_pos hso] at h
              exact ParseResult.noConfusion h
            · rw [if_neg hso] at h
              by_cases hq : (opts'.quiet && !opts'.stdout) = true
              · rw [if_pos hq] at h
                exact ParseResult.noConfusion h
              · rw [if_neg hq] at h
                have : opts' = opts := by
                  injection h
                subst this
                exact ⟨n, rfl, by omega, hF, by simpa using hso, by simpa using hq⟩

/-! ## Claims -/

/-- C2: for every number `r`, `validateRound r` succeeds — returning `r`
unchanged — exactly when `r` is an integer with `1 ≤ r ≤ MAX_SAFE_INTEGER`,
and in every other case it fails with a validation error. -/
theorem validateRound_ok_iff (r : JSNum) :
    (validateRound r = Except.ok r ↔
      ∃ n : ℤ, r = JSNum.num (n : ℚ) ∧ 1 ≤ n ∧ n ≤ maxSafeInteger) ∧
    (∀ x, validateRound r = Except.ok x → x = r) ∧
    (validateRound r ≠ Except.ok r → ∃ m, validateRound r = Except.error m) := by
  have hunch : ∀ x, validateRound r = Except.ok x → x = r := by
    intro x hx
    unfold validateRound at hx
    repeat' split at hx
    all_goals
      first
        | exact Except.noConfusion hx
        | (injection hx with hx; exact hx.symm)
  refine ⟨?_, hunch, ?_⟩
  · cases r with
    | num q =>
      constructor
      · intro hOk
        unfold validateRound at hOk
        by_cases hd : jsIsInteger (JSNum.num q) = true
        · rw [if_neg (by simp [hd])] at hOk
          by_cases hlt : jsLtInt (JSNum.num q) 1 = true
          · rw [if_pos hlt] at hOk
            exact Except.noConfusion hOk
          · rw [if_neg hlt] at hOk
            by_cases hgt : jsGtInt (JSNum.num q) maxSafeInteger = true
            · rw [if_pos hgt] at hOk
              exact Except.noConfusion hOk
            · have hden : q.den = 1 := by
                simpa [jsIsInteger] using hd
              have hq : (q.num : ℚ) = q := Rat.coe_int_num_of_den_eq_one hden
              refine ⟨q.num, by rw [hq], ?_, ?_⟩
              · have h1q : ¬ (q < ((1 : ℤ) : ℚ)) := by
                  simpa [jsLtInt] using hlt
                rw [← hq] at h1q
                exact_mod_cast not_lt.mp h1q
              · have h2q : ¬ (((maxSafeInteger : ℤ) : ℚ) < q) := by
                  simpa [jsGtInt] using hgt
                rw [← hq] at h2q
                exact_mod_cast not_lt.mp h2q
        · rw [if_pos (by simpa using hd)] at hOk
          exact Except.noConfusion hOk
      · rintro ⟨n, hEq, h1, h2⟩
        injection hEq with hEq
        subst hEq
        have hd : jsIsInteger (JSNum.num (n : ℚ)) = true := by
          simp [jsIsInteger]
        have hlt : jsLtInt (JSNum.num (n : ℚ)) 1 = false := by
          simp only [jsLtInt, decide_eq_false_iff_not]
          exact_mod_cast not_lt.mpr h1
        have hgt : jsGtInt (JSNum.num (n : ℚ)) maxSafeInteger = false := by
          simp only [jsGtInt, decide_eq_false_iff_not]
          exact_mod_cast not_lt.mpr h2
        unfold validateRound
        rw [if_neg (by simp [hd]), if_neg (by simp [hlt]), if_neg (by simp [hgt])]
    | nan =>
      simp [validateRound, jsIsInteger]
    | inf =>
      simp [validateRound, jsIsInteger]
    | negInf =>
      simp [validateRound, jsIsInteger]
  · intro hne
    cases hv : validateRound r with
    | error m => exact ⟨m, rfl⟩
    | ok x =>
      rw [hunch x hv] at hv
      exact absurd hv hne

/-- C2 witness: `validateRound` accepts the integer 5 unchanged. -/
theorem validateRound_ok_iff_witness :
    validateRound (JSNum.num (5 : ℚ)) = Except.ok (JSNum.num (5 : ℚ)) := by
  have h := (validateRound_ok_iff (JSNum.num ((5 : ℤ) : ℚ))).1
  exact h.mpr ⟨5, rfl, by omega, by unfold maxSafeInteger; omega⟩

/-- C9: `validateText` succeeds exactly on texts that are non-empty after
trimming, and an invocation whose text trims to empty is rejected with
exit code 1 before any client construction or network call. -/
theorem validateText_ok_iff :
    (∀ t : String, validateText t = Except.ok t ↔ jsTrim t ≠ ("")) ∧
    (∀ (t rTok : String) (rest : List String) (w : Oracle),
      (t :: rTok :: rest).contains ("--help") = false →
      (t :: rTok :: rest).contains ("-h") = false →
      jsTrim t = ("") →
      (mainRun (t :: rTok :: rest) w).2 = 1 ∧
        ((mainRun (t :: rTok :: rest) w).1.all (fun e => !isNetworkEvent e)) = true) := by
  constructor
  · intro t
    unfold validateText
    by_cases h : t = ("") ∨ (jsTrim t).length = 0
    · rw [if_pos h]
      refine iff_of_false (fun hx => Except.noConfusion hx) (fun hne => hne ?_)
      rcases h with rfl | hlen
      · rfl
      · exact string_length_eq_zero_iff.mp hlen
    · rw [if_neg h]
      push_neg at h
      exact iff_of_true rfl (fun hEq => h.2 (by rw [hEq]; rfl))
  · intro t rTok rest w h1 h2 htrim
    have hP : parseArgsRun (t :: rTok :: rest) =
        ([Event.elog ("❌ Error: Text cannot be empty")],
          ParseResult.usageError ("Text cannot be empty")) := by
      unfold parseArgsRun
      simp only [List.contains_cons, Bool.or_eq_false_iff, beq_eq_false_iff_ne, ne_eq] at h1 h2
      rw [if_neg (by simp_all)]
      simp only
      rw [if_pos (Or.inr (by rw [htrim]; rfl))]
    have hm : mainRun (t :: rTok :: rest) w = ((parseArgsRun (t :: rTok :: rest)).1, 1) :=
      @mainRun_usage _ w _ (by rw [hP])
    refine ⟨by rw [hm], ?_⟩
    rw [hm]
    exact parseArgsRun_no_network _

/-- C9 witness: a whitespace-only text is rejected with exit 1 and no
network activity, at the concrete invocation `["  ", "100"]`. -/
theorem validateText_ok_iff_witness :
    (mainRun [("  "), ("100")] oracleOk).2 = 1 ∧
      ((mainRun [("  "), ("100")] oracleOk).1.all (fun e => !isNetworkEvent e)) = true :=
  validateText_ok_iff.2 ("  ") ("100") [] oracleOk (by rfl) (by rfl) (by rfl)

/-- C1: for an invocation parsed with both stdout mode and quiet mode set,
when the encryption primitive succeeds the bytes written to the standard
output stream are exactly the artifact bytes, with no report or separator
text, and the run exits 0. -/
theorem quiet_stdout_pure {argv : List String} {w : Oracle} {opts : Options} {art : String}
    (hp : parseArgs argv = ParseResult.ok opts)
    (hs : opts.stdout = true) (hq : opts.quiet = true)
    (he : w.encryptResult = Except.ok art) :
    stdoutOf (mainRun argv w).1 = art ∧ (mainRun argv w).2 = 0 := by
  have hP := @parseArgsRun_ok_fst argv opts hp
  simp only [mainRun, hP, encryptTextRun, preReportEvents, hq, hs, he, if_true, if_false,
    Bool.true_eq_false, ite_false, ite_true, List.nil_append, List.append_nil]
  constructor
  · simp [stdoutOf_cons, stdoutOf_append, stdoutOf_nil, eventStdout,
      String.empty_append, String.append_empty]
  · trivial

/-- C1 witness: the concrete quiet+stdout invocation
`["Hello", "100", "--stdout", "--quiet"]` puts exactly the artifact on
standard output and exits 0. -/
theorem quiet_stdout_pure_witness :
    stdoutOf (mainRun [("Hello"), ("100"), ("--stdout"), ("--quiet")] oracleOk).1 = ("AGE-ARTIFACT") ∧
      (mainRun [("Hello"), ("100"), ("--stdout"), ("--quiet")] oracleOk).2 = 0 :=
  @quiet_stdout_pure [("Hello"), ("100"), ("--stdout"), ("--quiet")] oracleOk
    { text := ("Hello"), round := 100, output := none, testnet := false,
      verbose := false, stdout := true, quiet := true } ("AGE-ARTIFACT")
    (by decide) rfl rfl rfl

/-- C10: with stdout mode set but quiet mode not set, report text goes to
standard output via console.log both before and after the artifact write,
so the bytes on standard output are not the artifact alone. -/
theorem stdout_not_quiet_framed {argv : List String} {w : Oracle} {opts : Options} {art : String}
    (hp : parseArgs argv = ParseResult.ok opts)
    (hs : opts.stdout = true) (hq : opts.quiet = false)
    (he : w.encryptResult = Except.ok art) :
    ∃ pre post, (mainRun argv w).1 = pre ++ Event.writeStdout art :: post ∧
      (∃ s, Event.log s ∈ pre) ∧ (∃ s, Event.log s ∈ post) ∧
      stdoutOf (mainRun argv w).1 ≠ art := by
  have hP := @parseArgsRun_ok_fst argv opts hp
  have hdec : (mainRun argv w).1 =
      (Event.log ("🚀 TLOCK-JS CLI Encryption Tool") ::
       Event.log ("================================\n") ::
       Event.mkClient opts.testnet ::
       (preReportEvents opts w ++
        [Event.netEncrypt opts.round opts.text,
         Event.log ("✅ Encryption successful!"),
         Event.log ("📤 Outputting encrypted content to stdout:"),
         Event.log sepLine])) ++
      Event.writeStdout art ::
      [Event.log nlSepLine,
       Event.log ("\n🎉 Done! Encrypted content output to stdout."),
       Event.log ("\n💡 You can pipe this output to other tools or save to file."),
       Event.log ("\n💡 To decrypt later, use:"),
       Event.log ("   const decrypted = await timelockDecrypt(encryptedContent, client);")] := by
    simp [mainRun, hP, encryptTextRun, hq, hs, he]
  refine ⟨_, _, hdec, ⟨_, List.mem_cons_self _ _⟩, ⟨_, List.mem_cons_self _ _⟩, ?_⟩
  intro hEq
  rw [hdec] at hEq
  simp only [stdoutOf_append, stdoutOf_cons, stdoutOf_nil, eventStdout,
    String.empty_append, String.append_empty] at hEq
  have hlen := congrArg String.length hEq
  simp only [String.length_append] at hlen
  simp only [show (("\n" : String)).length = 1 from rfl] at hlen
  omega

/-- C10 witness: the concrete invocation `["Hello", "100", "--stdout"]`
has console.log output framing the artifact write on standard output. -/
theorem stdout_not_quiet_framed_witness :
    ∃ pre post, (mainRun [("Hello"), ("100"), ("--stdout")] oracleOk).1 =
        pre ++ Event.writeStdout ("AGE-ARTIFACT") :: post ∧
      (∃ s, Event.log s ∈ pre) ∧ (∃ s, Event.log s ∈ post) ∧
      stdoutOf (mainRun [("Hello"), ("100"), ("--stdout")] oracleOk).1 ≠ ("AGE-ARTIFACT") :=
  @stdout_not_quiet_framed [("Hello"), ("100"), ("--stdout")] oracleOk
    { text := ("Hello"), round := 100, output := none, testnet := false,
      verbose := false, stdout := true, quiet := false } ("AGE-ARTIFACT")
    (by decide) rfl rfl rfl

/-- The pre-encryption report never writes a file. -/
theorem preReport_no_file (o : Options) (w : Oracle) :
    ((preReportEvents o w).all (fun e => !isFileWrite e)) = true := by
  unfold preReportEvents
  repeat' split
  all_goals rfl

/-- C7: under verbose without quiet, a chain-info fetch failure is
reported as a warning and never prevents the encryption call: the warning
and the encryption call are both in the trace, and if the primitive then
succeeds the run still exits 0. -/
theorem chain_info_failure_nonfatal {argv : List String} {w : Oracle} {opts : Options} {e : JsError}
    (hp : parseArgs argv = ParseResult.ok opts)
    (hv : opts.verbose = true) (hq : opts.quiet = false)
    (hc : w.chainInfo = Except.error e) :
    Event.log ("⚠️  Could not fetch chain info: " ++ e.message) ∈ (mainRun argv w).1 ∧
      Event.netEncrypt opts.round opts.text ∈ (mainRun argv w).1 ∧
      (∀ art, w.encryptResult = Except.ok art → (mainRun argv w).2 = 0) := by
  have hP := @parseArgsRun_ok_fst argv opts hp
  cases henc : w.encryptResult with
  | error err =>
    refine ⟨?_, ?_, ?_⟩
    · simp [mainRun, hP, encryptTextRun, preReportEvents, hv, hq, hc, henc]
    · simp [mainRun, hP, encryptTextRun, preReportEvents, hv, hq, hc, henc]
    · intro art hart
      exact Except.noConfusion hart
  | ok art0 =>
    cases hso : opts.stdout with
    | true =>
      refine ⟨?_, ?_, ?_⟩ <;>
        simp [mainRun, hP, encryptTextRun, preReportEvents, hv, hq, hc, henc, hso]
    | false =>
      refine ⟨?_, ?_, ?_⟩ <;>
        simp [mainRun, hP, encryptTextRun, preReportEvents, hv, hq, hc, henc, hso]

/-- C7 witness: the concrete verbose invocation `["Hello", "100",
"--verbose"]` with a failing chain-info fetch still reaches encryption
and exits 0. -/
theorem chain_info_failure_nonfatal_witness :
    Event.log ("⚠️  Could not fetch chain info: " ++ ("fetch failed")) ∈
        (mainRun [("Hello"), ("100"), ("--verbose")] oracleChainFail).1 ∧
      Event.netEncrypt 100 ("Hello") ∈ (mainRun [("Hello"), ("100"), ("--verbose")] oracleChainFail).1 ∧
      (∀ art, oracleChainFail.encryptResult = Except.ok art →
        (mainRun [("Hello"), ("100"), ("--verbose")] oracleChainFail).2 = 0) :=
  @chain_info_failure_nonfatal [("Hello"), ("100"), ("--verbose")] oracleChainFail
    { text := ("Hello"), round := 100, output := none, testnet := false,
      verbose := true, stdout := false, quiet := false }
    { message := ("fetch failed"), full := ("Error: fetch failed") }
    (by decide) rfl rfl rfl

/-- C5 counterexample: under quiet+stdout a failing encryption exits 1
with no file write, but the failure message `boom` is reported nowhere —
the only stderr line is the ReferenceError of the broken catch block — so
the claim that the failure is always reported with its message is false. -/
theorem encrypt_failure_quiet_unreported :
    (mainRun [("Hello"), ("100"), ("--stdout"), ("--quiet")] oracleEncFail).2 = 1 ∧
      (mainRun [("Hello"), ("100"), ("--stdout"), ("--quiet")] oracleEncFail).1 =
        [Event.mkClient false, Event.netEncrypt 100 ("Hello"),
         Event.elog ("ReferenceError: options is not defined")] ∧
      Event.elog ("❌ Encryption failed: boom") ∉
        (mainRun [("Hello"), ("100"), ("--stdout"), ("--quiet")] oracleEncFail).1 := by
  decide

/-- C5 amended: an encryption-primitive failure always exits 1 and never
writes an output file; the failure is reported with its message — and in
full detail under verbose — only when quiet is not set. -/
theorem encrypt_failure_exit1 {argv : List String} {w : Oracle} {opts : Options} {err : JsError}
    (hp : parseArgs argv = ParseResult.ok opts)
    (he : w.encryptResult = Except.error err) :
    (mainRun argv w).2 = 1 ∧
      ((mainRun argv w).1.all (fun e => !isFileWrite e)) = true ∧
      (opts.quiet = false →
        Event.elog ("❌ Encryption failed: " ++ err.message) ∈ (mainRun argv w).1 ∧
        (opts.verbose = true → Event.elog ("Full error: " ++ err.full) ∈ (mainRun argv w).1)) := by
  have hP := @parseArgsRun_ok_fst argv opts hp
  refine ⟨?_, ?_, ?_⟩
  · simp [mainRun, hP, encryptTextRun, he]
  · cases hq0 : opts.quiet <;> cases hv0 : opts.verbose <;> cases hc : w.chainInfo <;>
      simp [mainRun, hP, encryptTextRun, preReportEvents, he, hq0, hv0, hc, isFileWrite]
  · intro hq
    refine ⟨?_, ?_⟩
    · simp [mainRun, hP, encryptTextRun, he, hq]
    · intro hv
      simp [mainRun, hP, encryptTextRun, he, hq, hv]

/-- C5 amended witness: the non-quiet invocation `["Hello", "100"]` with a
failing primitive exits 1, writes no file, and reports `boom`. -/
theorem encrypt_failure_exit1_witness :
    (mainRun [("Hello"), ("100")] oracleEncFail).2 = 1 ∧
      ((mainRun [("Hello"), ("100")] oracleEncFail).1.all (fun e => !isFileWrite e)) = true ∧
      ((({ text := ("Hello"), round := 100, output := none, testnet := false,
           verbose := false, stdout := false, quiet := false } : Options)).quiet = false →
        Event.elog ("❌ Encryption failed: " ++ ({ message := ("boom"), full := ("Error: boom") } : JsError).message) ∈
          (mainRun [("Hello"), ("100")] oracleEncFail).1 ∧
        ((({ text := ("Hello"), round := 100, output := none, testnet := false,
             verbose := false, stdout := false, quiet := false } : Options)).verbose = true →
          Event.elog ("Full error: " ++ ({ message := ("boom"), full := ("Error: boom") } : JsError).full) ∈
            (mainRun [("Hello"), ("100")] oracleEncFail).1)) :=
  @encrypt_failure_exit1 [("Hello"), ("100")] oracleEncFail
    { text := ("Hello"), round := 100, output := none, testnet := false,
      verbose := false, stdout := false, quiet := false }
    { message := ("boom"), full := ("Error: boom") }
    (by decide) rfl

/-- C8: when the parse saw no output flag and no stdout flag among the
flag tokens and encryption succeeds, the file written has the
auto-generated name `encrypted-<network>-round-<round>-<timestamp>.age`,
with `<network>` chosen by the testnet flag and every colon and period of
the ISO timestamp replaced. -/
theorem auto_filename_pattern {t rTok : String} {rest : List String} {w : Oracle}
    {opts : Options} {art : String}
    (hp : parseArgs (t :: rTok :: rest) = ParseResult.ok opts)
    (h1 : ("--output") ∉ rest) (h2 : ("-o") ∉ rest)
    (h3 : ("--stdout") ∉ rest) (h4 : ("-s") ∉ rest)
    (he : w.encryptResult = Except.ok art) :
    Event.writeFile (autoFilename w.nowIso opts.testnet opts.round) art ∈
        (mainRun (t :: rTok :: rest) w).1 ∧
      (∃ ts, autoFilename w.nowIso opts.testnet opts.round =
          ("encrypted-") ++ (if opts.testnet then ("testnet") else ("mainnet")) ++
            ("-round-") ++ toString opts.round ++ ("-") ++ ts ++ (".age") ∧
        ∀ c ∈ ts.data, c ≠ ':' ∧ c ≠ '.') := by
  obtain ⟨n, hJ, hn, hF, _, _⟩ := parseArgs_ok_inv hp
  obtain ⟨hout, hstd⟩ := parseFlags_abs h1 h2 h3 h4 hF
  have hout' : opts.output = none := by
    rw [hout]; rfl
  have hstd' : opts.stdout = false := by
    rw [hstd]; rfl
  have hP := @parseArgsRun_ok_fst (t :: rTok :: rest) opts hp
  constructor
  · cases hq0 : opts.quiet <;> cases hv0 : opts.verbose <;> cases hc : w.chainInfo <;>
      simp [mainRun, hP, encryptTextRun, preReportEvents, he, hq0, hv0, hc,
        hstd', hout', jsTruthyOutput]
  · refine ⟨sanitizeTimestamp w.nowIso, by simp [autoFilename, String.append_assoc], ?_⟩
    intro c hc
    have hdata : (sanitizeTimestamp w.nowIso).data =
        (w.nowIso.data.map (fun c => if c = ':' ∨ c = '.' then '-' else c)).take
          ((w.nowIso.data.map (fun c => if c = ':' ∨ c = '.' then '-' else c)).length - 5) := rfl
    rw [hdata] at hc
    have hc2 : c ∈ w.nowIso.data.map (fun c => if c = ':' ∨ c = '.' then '-' else c) :=
      List.take_subset _ _ hc
    obtain ⟨a, _, rfl⟩ := List.mem_map.mp hc2
    by_cases ha : a = ':' ∨ a = '.'
    · rw [if_pos ha]
      exact ⟨by decide, by decide⟩
    · rw [if_neg ha]
      push_neg at ha
      exact ha

/-- C8 witness: the invocation `["Hello", "100"]` writes the artifact to
the auto-generated mainnet filename with a sanitized timestamp. -/
theorem auto_filename_pattern_witness :
    Event.writeFile (autoFilename oracleOk.nowIso false 100) ("AGE-ARTIFACT") ∈
        (mainRun [("Hello"), ("100")] oracleOk).1 ∧
      (∃ ts, autoFilename oracleOk.nowIso false 100 =
          ("encrypted-") ++ (if false then ("testnet") else ("mainnet")) ++
            ("-round-") ++ toString (100 : Int) ++ ("-") ++ ts ++ (".age") ∧
        ∀ c ∈ ts.data, c ≠ ':' ∧ c ≠ '.') :=
  @auto_filename_pattern ("Hello") ("100") [] oracleOk
    { text := ("Hello"), round := 100, output := none, testnet := false,
      verbose := false, stdout := false, quiet := false } ("AGE-ARTIFACT")
    (by decide) (by simp) (by simp) (by simp) (by simp) rfl

/-- C3 counterexample: the claim says a round token with a fractional part
is rejected and the safe-integer bound is enforced, both with exit 1.
Here `"3.7"` is accepted (truncated to round 3) and
`"9007199254740992"` = 2^53 > MAX_SAFE_INTEGER is accepted too, so neither
rejection happens. -/
theorem round_token_fractional_accepted :
    parseArgs [("hello"), ("3.7")] = ParseResult.ok (optionsInit ("hello") 3) ∧
      parseArgs [("hello"), ("9007199254740992")] =
        ParseResult.ok (optionsInit ("hello") 9007199254740992) ∧
      (mainRun [("hello"), ("3.7")] oracleOk).2 = 0 := by
  decide

/-- C3 amended: the CLI accepts the round token exactly when `parseInt`
extracts a value at least 1 from it — truncating any fractional part and
enforcing no upper bound — and a rejected token exits 1 before any client
construction or network call. -/
theorem round_token_validation :
    (∀ (t rTok : String) (rest : List String) (opts : Options),
      parseArgs (t :: rTok :: rest) = ParseResult.ok opts →
      ∃ n : Int, jsParseInt rTok = some n ∧ 1 ≤ n ∧ opts.round = n) ∧
    (∀ (t rTok : String) (rest : List String) (w : Oracle),
      (t :: rTok :: rest).contains ("--help") = false →
      (t :: rTok :: rest).contains ("-h") = false →
      (jsParseInt rTok = none ∨ ∃ n : Int, jsParseInt rTok = some n ∧ n < 1) →
      (mainRun (t :: rTok :: rest) w).2 = 1 ∧
        ((mainRun (t :: rTok :: rest) w).1.all (fun e => !isNetworkEvent e)) = true) := by
  constructor
  · intro t rTok rest opts hp
    obtain ⟨n, hJ, hn, hF, _, _⟩ := parseArgs_ok_inv hp
    obtain ⟨_, hr⟩ := parseFlags_text_round hF
    exact ⟨n, hJ, hn, hr⟩
  · intro t rTok rest w h1 h2 hr
    have hU : ∃ m, (parseArgsRun (t :: rTok :: rest)).2 = ParseResult.usageError m := by
      unfold parseArgsRun
      simp only [List.contains_cons, Bool.or_eq_false_iff, beq_eq_false_iff_ne, ne_eq] at h1 h2
      rw [if_neg (by simp_all)]
      simp only
      by_cases ht : t = ("") ∨ (jsTrim t).length = 0
      · rw [if_pos ht]
        exact ⟨_, rfl⟩
      · rw [if_neg ht]
        rcases hr with hn | ⟨n, hsome, hlt⟩
        · rw [hn]
          exact ⟨_, rfl⟩
        · rw [hsome]
          simp only
          rw [if_pos hlt]
          exact ⟨_, rfl⟩
    obtain ⟨m, hU⟩ := hU
    have hm := @mainRun_usage _ w _ hU
    exact ⟨by rw [hm], by rw [hm]; exact parseArgsRun_no_network _⟩

/-- C3 amended witness: the token `"0.5"` truncates to 0, which fails the
positivity check: exit 1 and no network activity. -/
theorem round_token_validation_witness :
    (mainRun [("Hello"), ("0.5")] oracleOk).2 = 1 ∧
      ((mainRun [("Hello"), ("0.5")] oracleOk).1.all (fun e => !isNetworkEvent e)) = true :=
  round_token_validation.2 ("Hello") ("0.5") [] oracleOk rfl rfl
    (Or.inr ⟨0, by decide, by decide⟩)

/-- C4 counterexample: the unrecognized short flag `-x` after the two
positionals is silently ignored — the parse succeeds with default options
and the run exits 0, not 1. -/
theorem unknown_short_flag_ignored :
    parseArgs [("hi"), ("5"), ("-x")] = ParseResult.ok (optionsInit ("hi") 5) ∧
      (mainRun [("hi"), ("5"), ("-x")] oracleOk).2 = 0 := by
  decide

/-- C4 amended: an unknown long-form (`--`) flag token reaching the flag
loop is a hard error and, appearing right after the two positionals,
terminates the run with exit 1 before any network call; an unrecognized
single-dash (or other non-flag) token is silently skipped. -/
theorem unknown_flag_handling :
    (∀ (arg : String) (rest : List String) (o : Options),
      strStartsWith arg ("--") = true →
      arg ∉ [("--output"), ("--testnet"), ("--verbose"), ("--stdout"), ("--quiet")] →
      parseFlags (arg :: rest) o = Except.error (("Unknown flag: ") ++ arg)) ∧
    (∀ (arg : String) (rest : List String) (o : Options),
      strStartsWith arg ("--") = false →
      arg ∉ [("-o"), ("-t"), ("-v"), ("-s"), ("-q")] →
      parseFlags (arg :: rest) o = parseFlags rest o) ∧
    (∀ (t rTok f : String) (w : Oracle) (n : Int),
      [t, rTok, f].contains ("--help") = false →
      [t, rTok, f].contains ("-h") = false →
      ¬ (t = ("") ∨ (jsTrim t).length = 0) →
      jsParseInt rTok = some n → 1 ≤ n →
      strStartsWith f ("--") = true →
      f ∉ [("--output"), ("--testnet"), ("--verbose"), ("--stdout"), ("--quiet")] →
      (mainRun [t, rTok, f] w).2 = 1 ∧
        ((mainRun [t, rTok, f] w).1.all (fun e => !isNetworkEvent e)) = true) := by
  refine ⟨fun arg rest o hpre hm => parseFlags_unknown_long hpre hm,
          fun arg rest o hpre hm => parseFlags_skips_unrecognized hpre hm, ?_⟩
  intro t rTok f w n h1 h2 ht hsome hn hpre hm
  have hU : (parseArgsRun [t, rTok, f]).2 =
      ParseResult.usageError (("Unknown flag: ") ++ f) := by
    unfold parseArgsRun
    simp only [List.contains_cons, Bool.or_eq_false_iff, beq_eq_false_iff_ne, ne_eq] at h1 h2
    rw [if_neg (by simp_all)]
    simp only
    rw [if_neg ht, hsome]
    simp only
    rw [if_neg (by omega)]
    rw [parseFlags_unknown_long hpre hm]
  have hmm := @mainRun_usage _ w _ hU
  exact ⟨by rw [hmm], by rw [hmm]; exact parseArgsRun_no_network _⟩

/-- C4 amended witness: `["Hello", "100", "--frobnicate"]` exits 1 with no
network activity. -/
theorem unknown_flag_handling_witness :
    (mainRun [("Hello"), ("100"), ("--frobnicate")] oracleOk).2 = 1 ∧
      ((mainRun [("Hello"), ("100"), ("--frobnicate")] oracleOk).1.all
        (fun e => !isNetworkEvent e)) = true :=
  unknown_flag_handling.2.2 ("Hello") ("100") ("--frobnicate") oracleOk 100
    rfl rfl (by decide) (by decide) (by decide) rfl (by decide)

/-- C6 counterexample: with `--output ""` (an empty but explicitly set
output path) together with `--stdout`, the parse succeeds — `outputPath`
and `toStdout` are both set, and the run exits 0 instead of 1, because
the mutual-exclusion check tests JavaScript truthiness and the empty
string is falsy. -/
theorem stdout_and_empty_output_both_set :
    parseArgs [("x"), ("5"), ("--output"), (""), ("--stdout")] =
      ParseResult.ok { text := ("x"), round := 5, output := some (""), testnet := false,
                       verbose := false, stdout := true, quiet := false } ∧
      (mainRun [("x"), ("5"), ("--output"), (""), ("--stdout")] oracleOk).2 = 0 := by
  decide

/-- C6 amended: every successfully parsed record satisfies the invariants
with `set` read as JavaScript truthiness — `toStdout` never holds together
with a non-empty `outputPath` (an empty-string `outputPath` may coexist
with it), and `quiet` requires `toStdout` — and every usage error,
including the two invariant violations, exits 1 with no client
construction or network call. -/
theorem option_invariants :
    (∀ (argv : List String) (opts : Options),
      parseArgs argv = ParseResult.ok opts →
      (opts.stdout && jsTruthyOutput opts.output) = false ∧
        (opts.quiet = true → opts.stdout = true)) ∧
    (∀ (argv : List String) (w : Oracle) (m : String),
      parseArgs argv = ParseResult.usageError m →
      (mainRun argv w).2 = 1 ∧
        ((mainRun argv w).1.all (fun e => !isNetworkEvent e)) = true) := by
  constructor
  · intro argv opts hp
    match argv with
    | [] =>
      have h0 : parseArgs [] = ParseResult.usageError ("Missing required arguments") := by
        decide
      rw [h0] at hp
      exact ParseResult.noConfusion hp
    | [a] =>
      unfold parseArgs parseArgsRun at hp
      by_cases hh : ([a].contains ("--help") || [a].contains ("-h")) = true
      · rw [if_pos hh] at hp
        exact ParseResult.noConfusion hp
      · rw [if_neg hh] at hp
        simp only at hp
        exact ParseResult.noConfusion hp
    | t :: rTok :: rest =>
      obtain ⟨n, _, _, _, hinv1, hinv2⟩ := parseArgs_ok_inv hp
      refine ⟨hinv1, fun hqt => ?_⟩
      rw [hqt] at hinv2
      simpa using hinv2
  · intro argv w m hp
    have hm := @mainRun_usage _ w _ hp
    exact ⟨by rw [hm], by rw [hm]; exact parseArgsRun_no_network _⟩

/-- C6 amended witness: `["x", "5", "--stdout", "--output", "f.age"]`
violates the mutual exclusion and exits 1 with no network activity. -/
theorem option_invariants_witness :
    (mainRun [("x"), ("5"), ("--stdout"), ("--output"), ("f.age")] oracleOk).2 = 1 ∧
      ((mainRun [("x"), ("5"), ("--stdout"), ("--output"), ("f.age")] oracleOk).1.all
        (fun e => !isNetworkEvent e)) = true :=
  option_invariants.2 [("x"), ("5"), ("--stdout"), ("--output"), ("f.age")] oracleOk
    ("Cannot use both --stdout and --output") (by decide)
